import Mathlib

/-!
# Shallow embedding of the CMS backend (src/backend/main.py)

The repository is a FastAPI + SQLAlchemy content-management backend over a
single table `content_items` plus an `uploads/` directory of image blobs.
This file embeds the five handler functions `create_content`, `get_content`,
`get_content_item`, `update_content` and `delete_content` and the helper
`save_upload_file` as pure Lean functions over an explicit store state, and
proves the spec's claims about them.

Modelling conventions, each matching a concrete feature of the source:

* Timestamps are `Nat`.  `datetime.utcnow` is a clock read; every distinct
  call site of `datetime.utcnow` in the source receives its own explicit
  time parameter here, because nothing in the code makes two separate reads
  return the same instant.  In particular an insert evaluates the
  `created_at` column default and the `updated_at` column default by two
  separate `datetime.utcnow()` invocations (main.py lines 37-38), so
  `create_content` takes two time parameters.
* `datetime.fromisoformat (s.replace('Z', '+00:00'))` is Python library
  code, not repository code; it is abstracted as an explicit parameter
  `parseDate : String → Option Nat` (`none` = `ValueError`).  Theorems
  quantify over it.
* `uuid.uuid4()` in `save_upload_file` is abstracted as an explicit fresh
  string parameter.
* The database is the list of committed rows in insertion order; SQLite
  assigns a new `INTEGER PRIMARY KEY` as (maximum existing rowid) + 1.
  A handler that raises `HTTPException` before `db.commit()` leaves the
  table unchanged: the session is closed by the `get_db` dependency and an
  uncommitted transaction is rolled back.  Hence each handler applies its
  row mutations functionally and writes them to the store only on the
  success path.  File writes (`save_upload_file`) and file deletes
  (`unlink`) are NOT transactional: they take effect at the point of the
  call even if the handler later raises, and the embedding threads the blob
  state through accordingly.
* The blob store is the set of file names in `uploads/`, kept as a
  duplicate-free list: a filesystem holds at most one file per name
  (`open("wb")` overwrites), so `save_upload_file` inserts the name and
  `unlink` (guarded by `exists()`) erases it.
* `HTTPException(status_code, detail)` is the error type; the spec's
  `ValidationError` is status 400 and `NotFoundError` is status 404.
-/

/-- A row of the `content_items` table (class `ContentItem`, main.py 26-40). -/
structure ContentItem where
  id : Nat
  title : String
  content : String
  excerpt : Option String
  category : String
  image_url : Option String
  author : String
  published : Bool
  created_at : Nat
  updated_at : Nat
  event_date : Option Nat
  tags : Option String
deriving Repr, DecidableEq

/-- An uploaded file part: its client-supplied file name and declared media
type (FastAPI `UploadFile`). -/
structure UploadFile where
  filename : String
  content_type : String
deriving Repr, DecidableEq

/-- `fastapi.HTTPException(status_code=..., detail=...)`. -/
structure HTTPException where
  status_code : Nat
  detail : String
deriving Repr, DecidableEq

/-- The persistent state: the `content_items` table as the list of committed
rows in insertion (rowid) order, and the names of the files in `uploads/`. -/
structure Store where
  rows : List ContentItem
  blobs : List String
deriving Repr, DecidableEq

/-- The state at process start: empty table, empty uploads directory. -/
def emptyStore : Store := { rows := [], blobs := [] }

/-- Python truthiness of an optional string (`if event_date:` in
`create_content`, `if category:` in `get_content`): `None` and the empty
string are falsy. -/
def truthyStr : Option String → Bool
  | none => false
  | some s => s != ""

/-- `s.startswith(p)` (used as `content_type.startswith("image/")`,
main.py 126, 158 and 259): prefix test on the character sequence. -/
def startsWithStr (s p : String) : Bool :=
  p.data.isPrefixOf s.data

/-- Truthiness of `image and image.filename` (main.py 157 and 258): the part
is present and its filename is a non-empty string. -/
def imageSupplied : Option UploadFile → Bool
  | none => false
  | some img => img.filename != ""

/-- `os.path.splitext(name)[1]`: the extension of the file name, from its
last dot (inclusive); empty when there is no dot or the name consists of
leading dots only (e.g. `.bashrc` has no extension). -/
def splitextExt (f : String) : String :=
  let cs := f.data
  match (((List.range cs.length).filter (fun k => cs.getD k ' ' = '.')).getLast?) with
  | none => ""
  | some i => if (cs.take i).all (fun c => c = '.') then "" else String.mk (cs.drop i)

/-- `os.path.basename(p)`: the part of the path after the last slash. -/
def basename (p : String) : String :=
  String.mk ((p.data.reverse.takeWhile (fun c => c ≠ '/')).reverse)

/-- `save_upload_file` (main.py 106-115): store the uploaded bytes under a
generated name `uuid ++ extension` inside `uploads/` and return the public
reference `/uploads/{name}`.  `freshId` stands for `uuid.uuid4()`. -/
def save_upload_file (freshId : String) (upload_file : UploadFile)
    (blobs : List String) : String × List String :=
  let file_name := freshId ++ splitextExt upload_file.filename
  ("/uploads/" ++ file_name, blobs.insert file_name)

/-- The rowid SQLite assigns to the next inserted row: one more than the
largest existing id (1 on an empty table). -/
def maxId (rows : List ContentItem) : Nat :=
  rows.foldr (fun r m => max r.id m) 0

/-- The error raised when an id does not resolve to a row (main.py 234, 215,
281). -/
def notFoundExc : HTTPException :=
  { status_code := 404, detail := "Content item not found" }

/-- The error raised on an unparsable `event_date` (main.py 168, 255). -/
def badDateExc : HTTPException :=
  { status_code := 400, detail := "Invalid event_date format. Use ISO format." }

/-- The error raised on a non-image media type (main.py 159, 260). -/
def notImageExc : HTTPException :=
  { status_code := 400, detail := "File must be an image" }

/-- The valid categories (main.py 151). -/
def valid_categories : List String := ["blogs", "events", "news"]

/-- The error raised on an invalid category: the f-string renders the Python
list literal (main.py 153). -/
def badCategoryExc : HTTPException :=
  { status_code := 400,
    detail := "Category must be one of: ['blogs', 'events', 'news']" }

/-- The image-upload block of `create_content` (main.py 155-160): when a
part with a non-empty filename is present, check its media type and save it,
returning the new `image_url` and the uploads directory after the write. -/
def createImageStep (freshId : String) (image : Option UploadFile)
    (blobs : List String) :
    Except HTTPException (Option String × List String) :=
  match image with
  | some img =>
      if img.filename != "" then
        if startsWithStr img.content_type "image/" then
          let (url, blobs') := save_upload_file freshId img blobs
          .ok (some url, blobs')
        else .error notImageExc
      else .ok (none, blobs)
  | none => .ok (none, blobs)

/-- The `event_date` block of `create_content` (main.py 162-168): the guard
is the truthiness of the string, so `None` and the empty string both skip
parsing. -/
def createDateStep (parseDate : String → Option Nat)
    (event_date : Option String) : Except HTTPException (Option Nat) :=
  match event_date with
  | some s =>
      if s != "" then
        match parseDate s with
        | some d => .ok (some d)
        | none => .error badDateExc
      else .ok none
  | none => .ok none

/-- `create_content` (main.py 135-187).  Arguments follow the handler
signature; `parseDate` abstracts `datetime.fromisoformat` composed with the
`Z` replacement, `freshId` the `uuid4` call, and `tCreated`/`tUpdated` are
the two `datetime.utcnow()` reads made by the `created_at` and `updated_at`
column defaults at this insert.  Returns the handler outcome together with
the state after the request: on an exception before any file write the state
is unchanged, but an `event_date` failure happens after the image has been
saved, so that state keeps the new blob while the row insert never commits. -/
def create_content (title content category author : String)
    (excerpt : Option String) (published : Bool)
    (event_date : Option String) (tags : Option String)
    (image : Option UploadFile)
    (parseDate : String → Option Nat) (freshId : String)
    (tCreated tUpdated : Nat) (st : Store) :
    Except HTTPException ContentItem × Store :=
  -- Validate category
  if category ∈ valid_categories then
    -- Handle image upload
    match createImageStep freshId image st.blobs with
    | .error e => (.error e, st)
    | .ok (image_url, blobs') =>
      -- Parse event_date if provided (after the image write)
      match createDateStep parseDate event_date with
      | .error e => (.error e, { st with blobs := blobs' })
      | .ok parsed_event_date =>
        let db_item : ContentItem :=
          { id := maxId st.rows + 1
            title := title
            content := content
            excerpt := excerpt
            category := category
            image_url := image_url
            author := author
            published := published
            created_at := tCreated
            updated_at := tUpdated
            event_date := parsed_event_date
            tags := tags }
        (.ok db_item, { rows := st.rows ++ [db_item], blobs := blobs' })
  else (.error badCategoryExc, st)

/-- Stable insertion of a row into a list already sorted by `created_at`
descending: the row goes after every strictly newer row and before every row
that is not newer.  Together with `sortByCreatedDesc` this is the behaviour
of `ORDER BY created_at DESC` over rows scanned in rowid order with ties
kept in scan order. -/
def insertDesc (x : ContentItem) : List ContentItem → List ContentItem
  | [] => [x]
  | y :: ys =>
      if x.created_at < y.created_at then y :: insertDesc x ys
      else x :: y :: ys

/-- Stable sort by `created_at` descending (main.py 205). -/
def sortByCreatedDesc : List ContentItem → List ContentItem
  | [] => []
  | x :: xs => insertDesc x (sortByCreatedDesc xs)

/-- `get_content` (main.py 189-208): optional category and published
filters (the category filter tests truthiness, so an empty string disables
it), order by `created_at` descending, then `offset`/`limit` slicing. -/
def get_content (category : Option String) (published : Option Bool)
    (limit : Nat) (offset : Nat) (st : Store) : List ContentItem :=
  let query := st.rows
  let query := if truthyStr category then
      query.filter (fun r => r.category == category.getD "")
    else query
  let query := match published with
    | some p => query.filter (fun r => r.published == p)
    | none => query
  ((sortByCreatedDesc query).drop offset).take limit

/-- `get_content_item` (main.py 210-216): `.first()` row with the given id,
404 when there is none. -/
def get_content_item (item_id : Nat) (st : Store) :
    Except HTTPException ContentItem :=
  match st.rows.find? (fun r => r.id == item_id) with
  | none => .error notFoundExc
  | some item => .ok item

/-- The block of `if <field> is not None:` scalar assignments of
`update_content` (main.py 237-248), in source order. -/
def applyScalarUpdates (item : ContentItem)
    (title content excerpt author : Option String)
    (published : Option Bool) (tags : Option String) : ContentItem :=
  let item := match title with
    | some v => { item with title := v } | none => item
  let item := match content with
    | some v => { item with content := v } | none => item
  let item := match excerpt with
    | some v => { item with excerpt := v } | none => item
  let item := match author with
    | some v => { item with author := v } | none => item
  let item := match published with
    | some v => { item with published := v } | none => item
  let item := match tags with
    | some v => { item with tags := v } | none => item
  item

/-- Replace the first element satisfying `p` (the row `.first()` found and
the session mutated in place). -/
def updateFirst (p : ContentItem → Bool) (f : ContentItem → ContentItem) :
    List ContentItem → List ContentItem
  | [] => []
  | x :: xs => if p x then f x :: xs else x :: updateFirst p f xs

/-- The `event_date` block of `update_content` (main.py 250-255): the guard
is `is not None`, not truthiness, so an explicitly supplied empty string is
parsed (and fails). -/
def updateDateStep (parseDate : String → Option Nat)
    (event_date : Option String) (item : ContentItem) :
    Except HTTPException ContentItem :=
  match event_date with
  | some s =>
      match parseDate s with
      | some d => .ok { item with event_date := some d }
      | none => .error badDateExc
  | none => .ok item

/-- The image block of `update_content` (main.py 257-268): when a new image
part with a non-empty filename is present, check its media type, unlink the
old blob if its file exists (best-effort), save the new blob and point
`image_url` at it. -/
def updateImageStep (freshId : String) (image : Option UploadFile)
    (item : ContentItem) (blobs : List String) :
    Except HTTPException (ContentItem × List String) :=
  match image with
  | some img =>
      if img.filename != "" then
        if startsWithStr img.content_type "image/" then
          -- Delete old image if exists, then save the new one
          let blobs := match item.image_url with
            | some url => blobs.erase (basename url)
            | none => blobs
          let (url, blobs') := save_upload_file freshId img blobs
          .ok ({ item with image_url := some url }, blobs')
        else .error notImageExc
      else .ok (item, blobs)
  | none => .ok (item, blobs)

/-- `update_content` (main.py 218-274).  Scalar fields are assigned on the
session object first, then `event_date` is parsed, then the image is
replaced, then `updated_at` is set and the transaction commits.  An
exception on any of these paths happens before `db.commit()`, and also
before any file write (the media-type check precedes both the old-blob
unlink and the new-blob save), so the returned state on error is the input
state; assignments made on the session object are rolled back. -/
def update_content (item_id : Nat)
    (title content excerpt author : Option String)
    (published : Option Bool)
    (event_date : Option String) (tags : Option String)
    (image : Option UploadFile)
    (parseDate : String → Option Nat) (freshId : String)
    (tNow : Nat) (st : Store) :
    Except HTTPException ContentItem × Store :=
  match st.rows.find? (fun r => r.id == item_id) with
  | none => (.error notFoundExc, st)
  | some db_item =>
    -- Update fields if provided
    let db_item := applyScalarUpdates db_item title content excerpt author published tags
    -- Handle event_date update (guard is `is not None`)
    match updateDateStep parseDate event_date db_item with
    | .error e => (.error e, st)
    | .ok db_item =>
      -- Handle image update
      match updateImageStep freshId image db_item st.blobs with
      | .error e => (.error e, st)
      | .ok (db_item, blobs') =>
        let db_item := { db_item with updated_at := tNow }
        (.ok db_item,
         { rows := updateFirst (fun r => r.id == item_id) (fun _ => db_item) st.rows
           blobs := blobs' })

/-- `delete_content` (main.py 276-292): find the row, unlink its blob if the
file exists (best-effort), delete the row, commit. -/
def delete_content (item_id : Nat) (st : Store) :
    Except HTTPException String × Store :=
  match st.rows.find? (fun r => r.id == item_id) with
  | none => (.error notFoundExc, st)
  | some db_item =>
    let blobs' := match db_item.image_url with
      | some url => st.blobs.erase (basename url)
      | none => st.blobs
    (.ok "Content item deleted successfully",
     { rows := st.rows.eraseP (fun r => r.id == item_id), blobs := blobs' })

/-- One inbound mutating request, carrying its handler arguments together
with the nondeterministic environment inputs of that request (the generated
uuid and the clock reads). -/
inductive Op where
  | create (title content category author : String) (excerpt : Option String)
      (published : Bool) (event_date : Option String) (tags : Option String)
      (image : Option UploadFile) (freshId : String) (tCreated tUpdated : Nat)
  | update (item_id : Nat) (title content excerpt author : Option String)
      (published : Option Bool) (event_date : Option String)
      (tags : Option String) (image : Option UploadFile) (freshId : String)
      (tNow : Nat)
  | delete (item_id : Nat)
deriving Repr

/-- The state transition of one request (its response is discarded). -/
def applyOp (parseDate : String → Option Nat) (op : Op) (st : Store) : Store :=
  match op with
  | .create t c cat a e p ed tg im fid t1 t2 =>
      (create_content t c cat a e p ed tg im parseDate fid t1 t2 st).2
  | .update i t c e a p ed tg im fid tn =>
      (update_content i t c e a p ed tg im parseDate fid tn st).2
  | .delete i => (delete_content i st).2

/-- The state after serving a sequence of requests. -/
def run (parseDate : String → Option Nat) (ops : List Op) (st : Store) :
    Store :=
  ops.foldl (fun st op => applyOp parseDate op st) st

/-- A sample stored row with an attached image, used to evaluate theorems on
concrete inputs. -/
def sampleItem : ContentItem :=
  { id := 1, title := "A", content := "body", excerpt := none,
    category := "news", image_url := some "/uploads/u0.png",
    author := "Jane", published := false, created_at := 5, updated_at := 5,
    event_date := none, tags := none }

/-- A second sample row, created later than `sampleItem`. -/
def sampleItem2 : ContentItem :=
  { id := 2, title := "B", content := "body2", excerpt := none,
    category := "events", image_url := none, author := "Jo",
    published := true, created_at := 7, updated_at := 7,
    event_date := none, tags := none }

/-- A sample store holding `sampleItem` and its blob. -/
def sampleStore : Store := { rows := [sampleItem], blobs := ["u0.png"] }

/-- The row produced by
`create(title="Q1 Update", content="...", category="news", author="Jane")`
on an empty store when both clock reads return 3. -/
def q1Item : ContentItem :=
  { id := 1, title := "Q1 Update", content := "...", excerpt := none,
    category := "news", image_url := none, author := "Jane",
    published := false, created_at := 3, updated_at := 3,
    event_date := none, tags := none }

/-- The store after that create. -/
def q1Store : Store := { rows := [q1Item], blobs := [] }

/-! ### Lemmas about the stable descending sort -/

theorem mem_insertDesc {z x : ContentItem} {l : List ContentItem} :
    z ∈ insertDesc x l ↔ z = x ∨ z ∈ l := by
  induction l with
  | nil => simp [insertDesc]
  | cons y ys ih =>
      by_cases h : x.created_at < y.created_at
      · simp only [insertDesc, if_pos h, List.mem_cons, ih]
        tauto
      · simp only [insertDesc, if_neg h, List.mem_cons]

theorem pairwise_insertDesc {x : ContentItem} {l : List ContentItem}
    (h : l.Pairwise (fun a b => b.created_at ≤ a.created_at)) :
    (insertDesc x l).Pairwise (fun a b => b.created_at ≤ a.created_at) := by
  induction l with
  | nil => simp [insertDesc]
  | cons y ys ih =>
      rw [List.pairwise_cons] at h
      obtain ⟨hy, hys⟩ := h
      by_cases hc : x.created_at < y.created_at
      · simp only [insertDesc, if_pos hc]
        rw [List.pairwise_cons]
        refine ⟨?_, ih hys⟩
        intro z hz
        rcases mem_insertDesc.mp hz with rfl | hz'
        · exact Nat.le_of_lt hc
        · exact hy z hz'
      · simp only [insertDesc, if_neg hc]
        rw [List.pairwise_cons]
        refine ⟨?_, List.pairwise_cons.mpr ⟨hy, hys⟩⟩
        intro z hz
        rcases List.mem_cons.mp hz with rfl | hz'
        · exact Nat.le_of_not_lt hc
        · exact le_trans (hy z hz') (Nat.le_of_not_lt hc)

theorem pairwise_sortByCreatedDesc (l : List ContentItem) :
    (sortByCreatedDesc l).Pairwise (fun a b => b.created_at ≤ a.created_at) := by
  induction l with
  | nil => simp [sortByCreatedDesc]
  | cons x xs ih => exact pairwise_insertDesc ih

/-! ### Lemmas about id lookup and row replacement -/

theorem id_le_maxId {r : ContentItem} {rows : List ContentItem}
    (h : r ∈ rows) : r.id ≤ maxId rows := by
  induction rows with
  | nil => cases h
  | cons x xs ih =>
      show r.id ≤ max x.id (maxId xs)
      rcases List.mem_cons.mp h with rfl | h'
      · exact Nat.le_max_left _ _
      · exact le_trans (ih h') (Nat.le_max_right _ _)

theorem find?_append_new {rows : List ContentItem} {item : ContentItem}
    {i : Nat} (hid : item.id = i) (h : ∀ r ∈ rows, r.id ≠ i) :
    (rows ++ [item]).find? (fun r => r.id == i) = some item := by
  induction rows with
  | nil => simp [List.find?, hid]
  | cons x xs ih =>
      have hx : ¬ ((fun r => r.id == i) x = true) := by
        simp only [beq_iff_eq]
        exact h x (List.mem_cons_self x xs)
      rw [List.cons_append,
        List.find?_cons_of_neg (p := fun r => r.id == i) (a := x) _ hx]
      exact ih (fun r hr => h r (List.mem_cons_of_mem _ hr))

theorem updateFirst_map_of_find? {p : ContentItem → Bool}
    {l : List ContentItem} {a b : ContentItem} {γ : Type}
    {g : ContentItem → γ}
    (hfind : l.find? p = some a) (hg : g b = g a) :
    (updateFirst p (fun _ => b) l).map g = l.map g := by
  induction l with
  | nil => simp at hfind
  | cons x xs ih =>
      by_cases hx : p x = true
      · rw [List.find?_cons_of_pos _ hx] at hfind
        obtain rfl : x = a := by injection hfind
        simp only [updateFirst, if_pos hx, List.map_cons, hg]
      · rw [List.find?_cons_of_neg _ hx] at hfind
        simp only [updateFirst, if_neg hx, List.map_cons, ih hfind]

theorem find?_eraseP_id {rows : List ContentItem} {i : Nat}
    {a : ContentItem}
    (hnd : (rows.map (fun r => r.id)).Nodup)
    (hfind : rows.find? (fun r => r.id == i) = some a) :
    (rows.eraseP (fun r => r.id == i)).find? (fun r => r.id == i) = none := by
  induction rows with
  | nil => simp at hfind
  | cons x xs ih =>
      rw [List.map_cons, List.nodup_cons] at hnd
      obtain ⟨hx_nin, hnd'⟩ := hnd
      by_cases hx : ((fun r => r.id == i) x = true)
      · rw [List.eraseP_cons_of_pos (p := fun r => r.id == i) (a := x) hx]
        apply List.find?_eq_none.mpr
        intro r hr
        simp only [beq_iff_eq] at hx ⊢
        intro hri
        have hxr : x.id = r.id := by rw [hx, hri]
        exact hx_nin (hxr ▸ List.mem_map_of_mem _ hr)
      · rw [List.eraseP_cons_of_neg (p := fun r => r.id == i) (a := x) hx,
          List.find?_cons_of_neg (p := fun r => r.id == i) (a := x) _ hx]
        rw [List.find?_cons_of_neg (p := fun r => r.id == i) (a := x) _ hx]
          at hfind
        exact ih hnd' hfind

/-! ### Field-preservation lemmas for the update pipeline -/

theorem applyScalarUpdates_id (item : ContentItem)
    (title content excerpt author : Option String)
    (published : Option Bool) (tags : Option String) :
    (applyScalarUpdates item title content excerpt author published tags).id
      = item.id := by
  cases title <;> cases content <;> cases excerpt <;> cases author <;>
    cases published <;> cases tags <;> rfl

theorem applyScalarUpdates_category (item : ContentItem)
    (title content excerpt author : Option String)
    (published : Option Bool) (tags : Option String) :
    (applyScalarUpdates item title content excerpt author published tags).category
      = item.category := by
  cases title <;> cases content <;> cases excerpt <;> cases author <;>
    cases published <;> cases tags <;> rfl

theorem updateDateStep_ok_idcat {pd : String → Option Nat}
    {ed : Option String} {item item' : ContentItem}
    (h : updateDateStep pd ed item = .ok item') :
    item'.id = item.id ∧ item'.category = item.category := by
  unfold updateDateStep at h
  split at h
  · split at h
    · obtain rfl : _ = item' := by injection h
      exact ⟨rfl, rfl⟩
    · exact absurd h (by simp)
  · obtain rfl : item = item' := by injection h
    exact ⟨rfl, rfl⟩

theorem updateImageStep_ok_idcat {fid : String} {img : Option UploadFile}
    {item item' : ContentItem} {blobs blobs' : List String}
    (h : updateImageStep fid img item blobs = .ok (item', blobs')) :
    item'.id = item.id ∧ item'.category = item.category := by
  unfold updateImageStep at h
  split at h
  · split at h
    · split at h
      · obtain ⟨rfl, rfl⟩ : _ = item' ∧ _ = blobs' := by
          have := h
          simp only [Except.ok.injEq, Prod.mk.injEq] at this
          exact this
        exact ⟨rfl, rfl⟩
      · exact absurd h (by simp)
    · obtain ⟨rfl, rfl⟩ : item = item' ∧ blobs = blobs' := by
        simp only [Except.ok.injEq, Prod.mk.injEq] at h
        exact h
      exact ⟨rfl, rfl⟩
  · obtain ⟨rfl, rfl⟩ : item = item' ∧ blobs = blobs' := by
      simp only [Except.ok.injEq, Prod.mk.injEq] at h
      exact h
    exact ⟨rfl, rfl⟩

/-- `update_content` never changes any row's id or category (nor the row
count): the (id, category) projection of the table is invariant under it. -/
theorem update_content_idcat_map (item_id : Nat)
    (title content excerpt author : Option String) (published : Option Bool)
    (event_date : Option String) (tags : Option String)
    (image : Option UploadFile) (parseDate : String → Option Nat)
    (freshId : String) (tNow : Nat) (st : Store) :
    ((update_content item_id title content excerpt author published
        event_date tags image parseDate freshId tNow st).2).rows.map
          (fun r => (r.id, r.category))
      = st.rows.map (fun r => (r.id, r.category)) := by
  simp only [update_content]
  split
  · rfl
  · rename_i db_item hfind
    split
    · rfl
    · rename_i item2 hd
      split
      · rfl
      · rename_i item3 blobs' hi
        have h2 := updateDateStep_ok_idcat hd
        have h3 := updateImageStep_ok_idcat hi
        exact updateFirst_map_of_find? hfind (by
          simp only [h3.1, h3.2, h2.1, h2.2, applyScalarUpdates_id,
            applyScalarUpdates_category])

/-- The table invariant of the spec: every stored row's category is one of
the three recognized values. -/
def CategoriesValid (st : Store) : Prop :=
  ∀ r ∈ st.rows, r.category ∈ valid_categories

theorem create_content_preserves_categoriesValid
    (title content category author : String) (excerpt : Option String)
    (published : Bool) (event_date : Option String) (tags : Option String)
    (image : Option UploadFile) (parseDate : String → Option Nat)
    (freshId : String) (tCreated tUpdated : Nat) {st : Store}
    (h : CategoriesValid st) :
    CategoriesValid (create_content title content category author excerpt
      published event_date tags image parseDate freshId tCreated tUpdated
      st).2 := by
  simp only [create_content]
  by_cases hcat : category ∈ valid_categories
  · rw [if_pos hcat]
    cases hi : createImageStep freshId image st.blobs with
    | error e => exact h
    | ok pr =>
      obtain ⟨url, blobs'⟩ := pr
      cases hd : createDateStep parseDate event_date with
      | error e => exact h
      | ok d =>
        intro r hr
        rcases List.mem_append.mp hr with h1 | h2
        · exact h r h1
        · rw [List.mem_singleton.mp h2]
          exact hcat
  · rw [if_neg hcat]
    exact h

theorem update_content_preserves_categoriesValid (item_id : Nat)
    (title content excerpt author : Option String) (published : Option Bool)
    (event_date : Option String) (tags : Option String)
    (image : Option UploadFile) (parseDate : String → Option Nat)
    (freshId : String) (tNow : Nat) {st : Store}
    (h : CategoriesValid st) :
    CategoriesValid (update_content item_id title content excerpt author
      published event_date tags image parseDate freshId tNow st).2 := by
  intro r hr
  have hmap := update_content_idcat_map item_id title content excerpt author
    published event_date tags image parseDate freshId tNow st
  have hmem : (r.id, r.category)
      ∈ st.rows.map (fun r => (r.id, r.category)) := by
    rw [← hmap]
    exact List.mem_map_of_mem _ hr
  rcases List.mem_map.mp hmem with ⟨x, hx, hxeq⟩
  have hcat : x.category = r.category := (Prod.mk.injEq _ _ _ _ ▸ hxeq).2
  exact hcat ▸ h x hx

theorem delete_content_preserves_categoriesValid (item_id : Nat) {st : Store}
    (h : CategoriesValid st) :
    CategoriesValid (delete_content item_id st).2 := by
  simp only [delete_content]
  cases hfind : st.rows.find? (fun r => r.id == item_id) with
  | none => exact h
  | some item =>
      intro r hr
      exact h r ((List.eraseP_sublist st.rows).subset hr)

theorem run_preserves_categoriesValid (parseDate : String → Option Nat)
    (ops : List Op) :
    ∀ st : Store, CategoriesValid st → CategoriesValid (run parseDate ops st) := by
  induction ops with
  | nil => exact fun st h => h
  | cons op ops ih =>
      intro st h
      show CategoriesValid (run parseDate ops (applyOp parseDate op st))
      apply ih
      cases op with
      | create t c cat a e p ed tg im fid t1 t2 =>
          exact create_content_preserves_categoriesValid t c cat a e p ed tg
            im parseDate fid t1 t2 h
      | update i t c e a p ed tg im fid tn =>
          exact update_content_preserves_categoriesValid i t c e a p ed tg
            im parseDate fid tn h
      | delete i => exact delete_content_preserves_categoriesValid i h

/-! ### Claims -/

/-- C1: for every stored item and every event_date string the parser
rejects, `update(id, event_date=<unparsable>)` fails with `ValidationError`
(HTTP 400, the invalid-date message) and leaves the persisted state — the
stored entity, its `updated_at`, every field supplied earlier in the same
call, and the blob store — exactly as it was: the exception is raised before
`db.commit()`, so the session's in-memory assignments are rolled back. -/
theorem C1_update_bad_date_unchanged (item_id : Nat)
    (title content excerpt author : Option String) (published : Option Bool)
    (s : String) (tags : Option String) (image : Option UploadFile)
    (parseDate : String → Option Nat) (freshId : String) (tNow : Nat)
    (st : Store) (item : ContentItem)
    (hfind : st.rows.find? (fun r => r.id == item_id) = some item)
    (hparse : parseDate s = none) :
    update_content item_id title content excerpt author published (some s)
        tags image parseDate freshId tNow st
      = (.error ⟨400, "Invalid event_date format. Use ISO format."⟩, st) := by
  simp only [update_content, hfind]
  simp [updateDateStep, hparse, badDateExc]

/-- Witness for C1: a store holding one row, a parser rejecting "x". -/
theorem C1_witness :
    sampleStore.rows.find? (fun r => r.id == 1) = some sampleItem
    ∧ (fun _ : String => (none : Option Nat)) "x" = none
    ∧ update_content 1 none none none none none (some "x") none none
        (fun _ => none) "u" 9 sampleStore
      = (.error ⟨400, "Invalid event_date format. Use ISO format."⟩,
         sampleStore) :=
  ⟨rfl, rfl,
   C1_update_bad_date_unchanged 1 none none none none none "x" none none
     (fun _ => none) "u" 9 sampleStore sampleItem rfl rfl⟩

/-- C2 counterexample: `create` with a valid image part and an unparsable
`event_date` fails with `ValidationError` and inserts no row, yet a blob
("u1.png") has been written and remains: the image is saved (main.py 160)
before `event_date` is parsed (main.py 166), and the exception does not
remove the file.  This refutes "no blob is written to the Blob Store". -/
theorem C2_counterexample :
    create_content "t" "c" "events" "a" none false (some "bad") none
        (some { filename := "pic.png", content_type := "image/png" })
        (fun _ => none) "u1" 0 0 emptyStore
      = (.error ⟨400, "Invalid event_date format. Use ISO format."⟩,
         { rows := [], blobs := ["u1.png"] }) := by
  rfl

/-- C2 (amended): `create` with both an image and an unparsable `event_date`
fails with `ValidationError` and inserts no row, but the image blob has
already been written to the Blob Store by then and remains there
(orphaned). -/
theorem C2_create_bad_date_orphans_blob
    (title content category author : String) (excerpt : Option String)
    (published : Bool) (s : String) (tags : Option String)
    (img : UploadFile) (parseDate : String → Option Nat) (freshId : String)
    (t1 t2 : Nat) (st : Store)
    (hcat : category ∈ valid_categories)
    (hname : (img.filename != "") = true)
    (htype : startsWithStr img.content_type "image/" = true)
    (hs : (s != "") = true) (hparse : parseDate s = none) :
    create_content title content category author excerpt published (some s)
        tags (some img) parseDate freshId t1 t2 st
      = (.error ⟨400, "Invalid event_date format. Use ISO format."⟩,
         { rows := st.rows,
           blobs := st.blobs.insert (freshId ++ splitextExt img.filename) }) := by
  simp only [create_content, if_pos hcat]
  simp [createImageStep, save_upload_file, hname, htype, createDateStep, hs,
    hparse, badDateExc]

/-- Witness for C2's amended theorem. -/
theorem C2_witness :
    "events" ∈ valid_categories
    ∧ create_content "t" "c" "events" "a" none false (some "bad") none
        (some { filename := "pic.png", content_type := "image/png" })
        (fun _ => none) "u1" 0 0 emptyStore
      = (.error ⟨400, "Invalid event_date format. Use ISO format."⟩,
         { rows := emptyStore.rows,
           blobs := emptyStore.blobs.insert
             ("u1" ++ splitextExt "pic.png") }) :=
  ⟨by decide,
   C2_create_bad_date_orphans_blob "t" "c" "events" "a" none false "bad"
     none { filename := "pic.png", content_type := "image/png" }
     (fun _ => none) "u1" 0 0 emptyStore (by decide) (by decide) (by decide)
     (by decide) rfl⟩

/-- C3: `create` with a category outside {blogs, events, news} always fails
with `ValidationError` whose message lists the valid set, and persists
nothing: no row is inserted and no blob is written (the category check is
the first thing the handler does, before the image block). -/
theorem C3_create_invalid_category (title content category author : String)
    (excerpt : Option String) (published : Bool)
    (event_date : Option String) (tags : Option String)
    (image : Option UploadFile) (parseDate : String → Option Nat)
    (freshId : String) (t1 t2 : Nat) (st : Store)
    (hcat : category ∉ valid_categories) :
    create_content title content category author excerpt published
        event_date tags image parseDate freshId t1 t2 st
      = (.error ⟨400, "Category must be one of: ['blogs', 'events', 'news']"⟩,
         st) := by
  simp only [create_content, if_neg hcat, badCategoryExc]

/-- Witness for C3: the singular "blog" is not a valid category. -/
theorem C3_witness :
    "blog" ∉ valid_categories
    ∧ create_content "t" "c" "blog" "a" none false none none none
        (fun _ => none) "u" 0 0 sampleStore
      = (.error ⟨400, "Category must be one of: ['blogs', 'events', 'news']"⟩,
         sampleStore) :=
  ⟨by decide,
   C3_create_invalid_category "t" "c" "blog" "a" none false none none none
     (fun _ => none) "u" 0 0 sampleStore (by decide)⟩

/-- C4 counterexample: the success case of
`create(title="Q1 Update", content="...", category="news", author="Jane")`
with no event_date and no image, at a run where the `created_at` column
default reads clock value 0 and the `updated_at` column default reads 1:
the create succeeds but `created_at ≠ updated_at`, refuting
"created_at equal to updated_at".  The two fields come from two separate
`datetime.utcnow()` invocations (main.py 37-38), which nothing forces to
return the same instant. -/
theorem C4_counterexample :
    ((create_content "Q1 Update" "..." "news" "Jane" none false none none
        none (fun _ => none) "u" 0 1 emptyStore).1.map
          (fun it => (it.published, it.image_url, it.id,
            decide (it.created_at = it.updated_at))))
      = .ok (false, none, 1, false) := by
  rfl

/-- C4 (amended): every successful create with no event_date and no image
returns the entity with `published = false` (the supplied default),
`image_url = null`, the freshly assigned id, `created_at` equal to the clock
value read by the `created_at` column default and `updated_at` equal to the
one read by the `updated_at` column default — so `created_at = updated_at`
exactly when those two clock reads coincide, which the code does not
force. -/
theorem C4_create_defaults (title content category author : String)
    (excerpt : Option String) (tags : Option String)
    (parseDate : String → Option Nat) (freshId : String)
    (tCreated tUpdated : Nat) (st : Store)
    (hcat : category ∈ valid_categories) :
    create_content title content category author excerpt false none tags
        none parseDate freshId tCreated tUpdated st
      = (.ok { id := maxId st.rows + 1, title := title, content := content,
               excerpt := excerpt, category := category, image_url := none,
               author := author, published := false,
               created_at := tCreated, updated_at := tUpdated,
               event_date := none, tags := tags },
         { rows := st.rows ++
             [{ id := maxId st.rows + 1, title := title, content := content,
                excerpt := excerpt, category := category, image_url := none,
                author := author, published := false,
                created_at := tCreated, updated_at := tUpdated,
                event_date := none, tags := tags }],
           blobs := st.blobs }) := by
  simp only [create_content, if_pos hcat]
  rfl

/-- Witness for C4's amended theorem at the spec's example call. -/
theorem C4_witness :
    "news" ∈ valid_categories
    ∧ create_content "Q1 Update" "..." "news" "Jane" none false none none
        none (fun _ => none) "u" 3 3 emptyStore
      = (.ok { id := maxId emptyStore.rows + 1, title := "Q1 Update",
               content := "...", excerpt := none, category := "news",
               image_url := none, author := "Jane", published := false,
               created_at := 3, updated_at := 3, event_date := none,
               tags := none },
         { rows := emptyStore.rows ++
             [{ id := maxId emptyStore.rows + 1, title := "Q1 Update",
                content := "...", excerpt := none, category := "news",
                image_url := none, author := "Jane", published := false,
                created_at := 3, updated_at := 3, event_date := none,
                tags := none }],
           blobs := emptyStore.blobs }) :=
  ⟨by decide,
   C4_create_defaults "Q1 Update" "..." "news" "Jane" none none
     (fun _ => none) "u" 3 3 emptyStore (by decide)⟩

/-- C5 counterexample: two items created in sequence (A then B) with equal
`created_at` (both clock reads return 5).  The listing shows A before B:
`ORDER BY created_at DESC` with no secondary key keeps ties in insertion
order, so B does NOT appear before A, refuting the claim for ties. -/
theorem C5_counterexample :
    ((get_content none none 20 0
        (create_content "B" "b" "news" "x" none false none none none
            (fun _ => none) "u" 5 5
          ((create_content "A" "a" "news" "x" none false none none none
              (fun _ => none) "u" 5 5 emptyStore).2)).2).map
      (fun r => r.title))
      = ["A", "B"] := by
  rfl

/-- C5 (amended): `list()` results are always sorted by `created_at`
descending, with ties kept in insertion order (stable); for two rows stored
in sequence A then B, B appears before A exactly when B's `created_at` is
strictly greater, and on equal `created_at` A appears before B. -/
theorem C5_list_sorted :
    (∀ (category : Option String) (published : Option Bool)
        (limit offset : Nat) (st : Store),
        (get_content category published limit offset st).Pairwise
          (fun a b => b.created_at ≤ a.created_at))
    ∧ (∀ (a b : ContentItem) (bl : List String),
        a.created_at < b.created_at →
        get_content none none 20 0 { rows := [a, b], blobs := bl } = [b, a])
    ∧ (∀ (a b : ContentItem) (bl : List String),
        a.created_at = b.created_at →
        get_content none none 20 0 { rows := [a, b], blobs := bl } = [a, b]) := by
  refine ⟨?_, ?_, ?_⟩
  · intro category published limit offset st
    simp only [get_content]
    exact ((pairwise_sortByCreatedDesc _).sublist
      (List.drop_sublist _ _)).sublist (List.take_sublist _ _)
  · intro a b bl h
    simp [get_content, truthyStr, sortByCreatedDesc, insertDesc, h]
  · intro a b bl h
    simp [get_content, truthyStr, sortByCreatedDesc, insertDesc, h]

/-- Witness for C5 at two concrete rows with distinct and with equal
creation times. -/
theorem C5_witness :
    sampleItem.created_at < sampleItem2.created_at
    ∧ get_content none none 20 0
        { rows := [sampleItem, sampleItem2], blobs := [] }
      = [sampleItem2, sampleItem]
    ∧ get_content none none 20 0
        { rows := [sampleItem, sampleItem], blobs := [] }
      = [sampleItem, sampleItem] :=
  ⟨by decide,
   C5_list_sorted.2.1 sampleItem sampleItem2 [] (by decide),
   C5_list_sorted.2.2 sampleItem sampleItem [] rfl⟩

/-- C6: a partial update changes only the supplied fields plus `updated_at`.
First conjunct: `update(id)` with no fields set still refreshes
`updated_at` (to the clock value read at main.py 270) and leaves every
other field identical.  Second conjunct: `update(id, published=true)`
changes only `published` and `updated_at`.  In both cases the stored row is
replaced by that same record, the other rows and the blob store are
untouched, and the handler returns the updated entity. -/
theorem C6_partial_update_frame :
    (∀ (item_id : Nat) (parseDate : String → Option Nat) (freshId : String)
        (tNow : Nat) (st : Store) (item : ContentItem),
        st.rows.find? (fun r => r.id == item_id) = some item →
        update_content item_id none none none none none none none none
            parseDate freshId tNow st
          = (.ok { item with updated_at := tNow },
             { rows := updateFirst (fun r => r.id == item_id)
                 (fun _ => { item with updated_at := tNow }) st.rows,
               blobs := st.blobs }))
    ∧ (∀ (item_id : Nat) (parseDate : String → Option Nat) (freshId : String)
        (tNow : Nat) (st : Store) (item : ContentItem),
        st.rows.find? (fun r => r.id == item_id) = some item →
        update_content item_id none none none none (some true) none none
            none parseDate freshId tNow st
          = (.ok { item with published := true, updated_at := tNow },
             { rows := updateFirst (fun r => r.id == item_id)
                 (fun _ =>
                   { item with published := true, updated_at := tNow })
                 st.rows,
               blobs := st.blobs })) := by
  constructor
  · intro item_id parseDate freshId tNow st item hfind
    simp only [update_content, hfind]
    rfl
  · intro item_id parseDate freshId tNow st item hfind
    simp only [update_content, hfind]
    rfl

/-- Witness for C6 on a concrete one-row store. -/
theorem C6_witness :
    sampleStore.rows.find? (fun r => r.id == 1) = some sampleItem
    ∧ update_content 1 none none none none none none none none
        (fun _ => none) "u" 9 sampleStore
      = (.ok { sampleItem with updated_at := 9 },
         { rows := updateFirst (fun r => r.id == 1)
             (fun _ => { sampleItem with updated_at := 9 })
             sampleStore.rows,
           blobs := sampleStore.blobs })
    ∧ update_content 1 none none none none (some true) none none none
        (fun _ => none) "u" 9 sampleStore
      = (.ok { sampleItem with published := true, updated_at := 9 },
         { rows := updateFirst (fun r => r.id == 1)
             (fun _ =>
               { sampleItem with published := true, updated_at := 9 })
             sampleStore.rows,
           blobs := sampleStore.blobs }) :=
  ⟨rfl,
   C6_partial_update_frame.1 1 (fun _ => none) "u" 9 sampleStore sampleItem
     rfl,
   C6_partial_update_frame.2 1 (fun _ => none) "u" 9 sampleStore sampleItem
     rfl⟩

/-- C7: first conjunct — for every item returned by a successful `create`,
a subsequent `get(id)` on the resulting state returns exactly that entity
(equal on every field, hence byte-for-byte on the text fields).  Second
conjunct — `get` of an id with no row fails with `NotFoundError` (404). -/
theorem C7_create_get_roundtrip :
    (∀ (title content category author : String) (excerpt : Option String)
        (published : Bool) (event_date : Option String)
        (tags : Option String) (image : Option UploadFile)
        (parseDate : String → Option Nat) (freshId : String) (t1 t2 : Nat)
        (st st' : Store) (item : ContentItem),
        create_content title content category author excerpt published
            event_date tags image parseDate freshId t1 t2 st
          = (.ok item, st') →
        get_content_item item.id st' = .ok item)
    ∧ (∀ (item_id : Nat) (st : Store),
        st.rows.find? (fun r => r.id == item_id) = none →
        get_content_item item_id st
          = .error ⟨404, "Content item not found"⟩) := by
  constructor
  · intro title content category author excerpt published event_date tags
      image parseDate freshId t1 t2 st st' item h
    simp only [create_content] at h
    by_cases hcat : category ∈ valid_categories
    · rw [if_pos hcat] at h
      cases hi : createImageStep freshId image st.blobs with
      | error e =>
          rw [hi] at h
          simp at h
      | ok pr =>
        obtain ⟨url, blobs'⟩ := pr
        rw [hi] at h
        cases hd : createDateStep parseDate event_date with
        | error e =>
            rw [hd] at h
            simp at h
        | ok d =>
          rw [hd] at h
          simp only [Prod.mk.injEq, Except.ok.injEq] at h
          obtain ⟨hitem, hst⟩ := h
          subst hitem
          subst hst
          simp only [get_content_item]
          rw [find?_append_new (i := maxId st.rows + 1) rfl (fun r hr => by
            have hle := id_le_maxId hr
            omega)]
    · rw [if_neg hcat] at h
      simp at h
  · intro item_id st hfind
    simp only [get_content_item, hfind]
    rfl

/-- Witness for C7: the spec's example create on an empty store, and a get
of a missing id. -/
theorem C7_witness :
    create_content "Q1 Update" "..." "news" "Jane" none false none none
        none (fun _ => none) "u" 3 3 emptyStore = (.ok q1Item, q1Store)
    ∧ get_content_item q1Item.id q1Store = .ok q1Item
    ∧ emptyStore.rows.find? (fun r => r.id == 99) = none
    ∧ get_content_item 99 emptyStore
      = .error ⟨404, "Content item not found"⟩ :=
  ⟨rfl,
   C7_create_get_roundtrip.1 "Q1 Update" "..." "news" "Jane" none false
     none none none (fun _ => none) "u" 3 3 emptyStore q1Store q1Item rfl,
   rfl,
   C7_create_get_roundtrip.2 99 emptyStore rfl⟩

/-- C8: first conjunct — in every state reachable from the empty store by
any sequence of create/update/delete requests, every stored row's category
is one of {blogs, events, news}.  Second conjunct — `update_content` never
changes any row's category (nor id): the (id, category) projection of the
table is exactly preserved, so category is immutable after creation. -/
theorem C8_category_invariant :
    (∀ (parseDate : String → Option Nat) (ops : List Op),
        ∀ r ∈ (run parseDate ops emptyStore).rows,
          r.category ∈ valid_categories)
    ∧ (∀ (item_id : Nat) (title content excerpt author : Option String)
        (published : Option Bool) (event_date : Option String)
        (tags : Option String) (image : Option UploadFile)
        (parseDate : String → Option Nat) (freshId : String) (tNow : Nat)
        (st : Store),
        ((update_content item_id title content excerpt author published
            event_date tags image parseDate freshId tNow st).2).rows.map
              (fun r => (r.id, r.category))
          = st.rows.map (fun r => (r.id, r.category))) := by
  constructor
  · intro parseDate ops
    exact run_preserves_categoriesValid parseDate ops emptyStore
      (fun r hr => absurd hr (List.not_mem_nil r))
  · exact update_content_idcat_map

/-- Witness for C8 on a one-request trace. -/
theorem C8_witness :
    q1Item ∈ (run (fun _ => none)
        [Op.create "Q1 Update" "..." "news" "Jane" none false none none
          none "u" 3 3] emptyStore).rows
    ∧ q1Item.category ∈ valid_categories :=
  ⟨by decide,
   C8_category_invariant.1 (fun _ => none)
     [Op.create "Q1 Update" "..." "news" "Jane" none false none none none
       "u" 3 3] q1Item (by decide)⟩

/-- C9: `delete(id)` of a stored item removes the row, and removes the
referenced blob when `image_url` is non-null (best-effort: `erase` is a
no-op when the file is already missing, and deletion still succeeds); a
second `delete(id)` then fails with `NotFoundError`.  The id-uniqueness
hypothesis is the table's PRIMARY KEY constraint and the blob-list
hypothesis is the filesystem's one-file-per-name property. -/
theorem C9_delete_removes (item_id : Nat) (st : Store) (item : ContentItem)
    (hfind : st.rows.find? (fun r => r.id == item_id) = some item)
    (hids : (st.rows.map (fun r => r.id)).Nodup)
    (hblobs : st.blobs.Nodup) :
    delete_content item_id st
      = (.ok "Content item deleted successfully",
         { rows := st.rows.eraseP (fun r => r.id == item_id),
           blobs := match item.image_url with
             | some url => st.blobs.erase (basename url)
             | none => st.blobs })
    ∧ (∀ url, item.image_url = some url →
        basename url ∉ (delete_content item_id st).2.blobs)
    ∧ delete_content item_id (delete_content item_id st).2
      = (.error ⟨404, "Content item not found"⟩,
         (delete_content item_id st).2) := by
  have h1 : delete_content item_id st
      = (.ok "Content item deleted successfully",
         { rows := st.rows.eraseP (fun r => r.id == item_id),
           blobs := match item.image_url with
             | some url => st.blobs.erase (basename url)
             | none => st.blobs }) := by
    simp only [delete_content, hfind]
  refine ⟨h1, ?_, ?_⟩
  · intro url hurl hmem
    rw [h1] at hmem
    simp only [hurl] at hmem
    exact (hblobs.mem_erase_iff.mp hmem).1 rfl
  · rw [h1]
    simp only [delete_content]
    rw [find?_eraseP_id hids hfind]
    rfl

/-- Witness for C9 on a one-row store whose item carries a blob. -/
theorem C9_witness :
    sampleStore.rows.find? (fun r => r.id == 1) = some sampleItem
    ∧ (sampleStore.rows.map (fun r => r.id)).Nodup
    ∧ sampleStore.blobs.Nodup
    ∧ delete_content 1 (delete_content 1 sampleStore).2
      = (.error ⟨404, "Content item not found"⟩,
         (delete_content 1 sampleStore).2) :=
  ⟨rfl, by decide, by decide,
   (C9_delete_removes 1 sampleStore sampleItem rfl (by decide)
     (by decide)).2.2⟩

/-- C10: `list` called with `category` equal to the empty string behaves
exactly as if `category` were absent — no category filter is applied —
because the handler tests the argument's truthiness (`if category:`) and
the empty string is falsy. -/
theorem C10_empty_category_unfiltered (published : Option Bool)
    (limit offset : Nat) (st : Store) :
    get_content (some "") published limit offset st
      = get_content none published limit offset st := by
  rfl
